import Mathlib

/-!
# Verification of `stanza/monitoring/trigger.py`

A shallow embedding of the early-stopping trigger module: the threshold,
patience and sliding-window-slope stopping criteria.  Python floats are
modelled by extended rationals (`XRat`: a rational, `-inf`, or `+inf`; the
claims under study involve no NaN).  Stateful methods are embedded as
functions returning a result together with the updated state.
-/

/-- Extended rationals: the numeric domain modelling the Python floats used by
the trigger module (finite values plus the two infinities; no NaN arises in
the behaviours studied here). -/
inductive XRat where
  | negInf : XRat
  | fin : ℚ → XRat
  | posInf : XRat
deriving DecidableEq

/-- Strict order test on `XRat`, matching IEEE `<` on non-NaN floats. -/
def XRat.blt : XRat → XRat → Bool
  | .negInf, .negInf => false
  | .negInf, .fin _ => true
  | .negInf, .posInf => true
  | .fin _, .negInf => false
  | .fin a, .fin b => decide (a < b)
  | .fin _, .posInf => true
  | .posInf, _ => false

/-- Strict greater-than on `XRat` (Python `a > b`). -/
def XRat.bgt (a b : XRat) : Bool := XRat.blt b a

/-- Error conditions that a method call may signal.  `attributeError` models
Python failing to resolve a method name on an object (the class neither
defines nor inherits it); `notImplementedErr` models an explicit
`raise NotImplementedError()`. -/
inductive TriggerError where
  | attributeError : TriggerError
  | notImplementedErr : TriggerError
deriving DecidableEq

/-- The three concrete criterion classes of `trigger.py`. -/
inductive TriggerClass where
  | threshold : TriggerClass
  | patience : TriggerClass
  | slope : TriggerClass
deriving DecidableEq

/-- Whether the class resolves a `reset` attribute.  `PatienceEarlyStopping`
and `SlopeThresholdEarlyStopping` inherit `StatefulTriggerMixin` (and so
resolve `reset`); `ThresholdEarlyStopping` extends only `EarlyStopping` and
defines no `reset`, so attribute lookup fails. -/
def hasResetAttr : TriggerClass → Bool
  | .threshold => false
  | .patience => true
  | .slope => true

/-- Embeds the dynamic dispatch of a `reset()` call on an instance of the
given class: if the attribute resolves the call proceeds, otherwise Python
signals `AttributeError`. -/
def callResetOn (c : TriggerClass) : Except TriggerError Unit :=
  if hasResetAttr c then Except.ok () else Except.error TriggerError.attributeError

/-- `StatefulTriggerMixin.reset` as written in the mixin itself: it raises
`NotImplementedError` (the concrete stateful classes override it). -/
def statefulMixinReset : Except TriggerError Unit :=
  Except.error TriggerError.notImplementedErr

/-- State of `ThresholdEarlyStopping`: the two bounds fixed in `__init__`. -/
structure ThresholdEarlyStopping where
  min : XRat
  max : XRat
deriving DecidableEq

namespace ThresholdEarlyStopping

/-- `ThresholdEarlyStopping.__init__(min_threshold, max_threshold)`. -/
def init (min_threshold max_threshold : XRat) : ThresholdEarlyStopping :=
  { min := min_threshold, max := max_threshold }

/-- `ThresholdEarlyStopping()` with the default arguments
`min_threshold=-float('inf')`, `max_threshold=float('inf')`. -/
def initDefault : ThresholdEarlyStopping :=
  init XRat.negInf XRat.posInf

/-- `ThresholdEarlyStopping.should_stop`:
`return new_value > self.max or new_value < self.min`.  The method touches no
mutable state, so it is embedded as a pure function. -/
def should_stop (t : ThresholdEarlyStopping) (new_value : XRat) : Bool :=
  new_value.bgt t.max || new_value.blt t.min

/-- The observable effect of a `should_stop` call on a threshold instance:
the returned boolean paired with the (unchanged) instance state. -/
def stepEffect (t : ThresholdEarlyStopping) (new_value : XRat) :
    Bool × ThresholdEarlyStopping :=
  (t.should_stop new_value, t)

end ThresholdEarlyStopping

/-- State of `PatienceEarlyStopping`: the `patience` parameter plus the two
mutable fields `best_so_far` and `time_since_best`. -/
structure PatienceEarlyStopping where
  patience : ℕ
  best_so_far : XRat
  time_since_best : ℕ
deriving DecidableEq

namespace PatienceEarlyStopping

/-- `PatienceEarlyStopping.__init__(patience)`: records the parameter and sets
`best_so_far = -float('inf')`, `time_since_best = 0`. -/
def init (patience : ℕ) : PatienceEarlyStopping :=
  { patience := patience, best_so_far := XRat.negInf, time_since_best := 0 }

/-- `PatienceEarlyStopping.should_stop(new_value)`: on strict improvement
record the new best, zero the counter and return `False`; otherwise bump the
counter and return `self.time_since_best > self.patience`. -/
def should_stop (p : PatienceEarlyStopping) (new_value : XRat) :
    Bool × PatienceEarlyStopping :=
  if new_value.bgt p.best_so_far then
    (false, { p with best_so_far := new_value, time_since_best := 0 })
  else
    (decide (p.time_since_best + 1 > p.patience),
     { p with time_since_best := p.time_since_best + 1 })

/-- `PatienceEarlyStopping.reset`: restore `best_so_far = -float('inf')` and
`time_since_best = 0`. -/
def reset (p : PatienceEarlyStopping) : PatienceEarlyStopping :=
  { p with best_so_far := XRat.negInf, time_since_best := 0 }

end PatienceEarlyStopping

/-- Feed a list of values to consecutive `should_stop` calls on a patience
instance, collecting the returned booleans. -/
def runPatience (p : PatienceEarlyStopping) : List XRat → List Bool
  | [] => []
  | v :: vs =>
    let r := p.should_stop v
    r.1 :: runPatience r.2 vs

/-- Sum of pairwise products of two lists (`np.dot` on equal-length vectors). -/
def dotQ (a b : List ℚ) : ℚ :=
  ((a.zip b).map fun p => p.1 * p.2).sum

/-- Slope component of the ordinary least-squares line fit `y = m*x + c`.
`np.linalg.lstsq(A, y)[0]` with `A = [[x_0,1],...,[x_{n-1},1]]` returns the
least-squares solution `(m, c)`; when `A` has full column rank (which holds
for the distinct time indices built in `__init__` with `time ≥ 2`) this is
the unique solution of the normal equations, whose slope component is this
closed form. -/
def olsSlope (x y : List ℚ) : ℚ :=
  ((x.length : ℚ) * dotQ x y - x.sum * y.sum) /
    ((x.length : ℚ) * dotQ x x - x.sum * x.sum)

/-- Intercept component of the same ordinary least-squares fit. -/
def olsIntercept (x y : List ℚ) : ℚ :=
  (y.sum * dotQ x x - x.sum * dotQ x y) /
    ((x.length : ℚ) * dotQ x x - x.sum * x.sum)

/-- State of `SlopeThresholdEarlyStopping`: the bounds, the observation count,
the window width `time`, the fixed time-index vector `x = range(time)`, the
rolling value buffer `y` (zero-initialized), and the regression design matrix
`A = vstack([x, ones]).T` (each row is `(x_i, 1)`). -/
structure SlopeThresholdEarlyStopping where
  min : XRat
  max : XRat
  points_seen : ℕ
  time : ℕ
  x : List ℚ
  y : List ℚ
  A : List (ℚ × ℚ)
deriving DecidableEq

namespace SlopeThresholdEarlyStopping

/-- `SlopeThresholdEarlyStopping.__init__(min_thresh, max_thresh, time)`. -/
def init (min_thresh max_thresh : XRat) (time : ℕ) : SlopeThresholdEarlyStopping :=
  let x := (List.range time).map fun i : ℕ => (i : ℚ)
  { min := min_thresh, max := max_thresh, points_seen := 0, time := time,
    x := x, y := List.replicate time 0, A := x.map fun xi => (xi, 1) }

/-- `SlopeThresholdEarlyStopping.should_stop(new_value)`: shift the buffer
left one slot and write `new_value` into the last slot; while
`points_seen < time - 1` bump the count and return `False`; otherwise solve
the least-squares fit and return `m < self.min or m > self.max`. -/
def should_stop (s : SlopeThresholdEarlyStopping) (new_value : ℚ) :
    Bool × SlopeThresholdEarlyStopping :=
  let yNew := s.y.tail ++ [new_value]
  if s.points_seen < s.time - 1 then
    (false, { s with y := yNew, points_seen := s.points_seen + 1 })
  else
    let m := olsSlope s.x yNew
    ((XRat.fin m).blt s.min || (XRat.fin m).bgt s.max, { s with y := yNew })

/-- `SlopeThresholdEarlyStopping.reset`: zero the count and the buffer
(`self.y.fill(0)` keeps the buffer length). -/
def reset (s : SlopeThresholdEarlyStopping) : SlopeThresholdEarlyStopping :=
  { s with points_seen := 0, y := List.replicate s.y.length 0 }

/-- Structural well-formedness established by `__init__` and preserved by
every call: the time axis is `range(time)`, the design matrix pairs it with
ones, the buffer has exactly `time` slots, and the window is nonempty. -/
def WF (s : SlopeThresholdEarlyStopping) : Prop :=
  s.x = (List.range s.time).map (fun i : ℕ => (i : ℚ)) ∧
  s.A = s.x.map (fun xi => (xi, 1)) ∧
  s.y.length = s.time ∧
  1 ≤ s.time

instance (s : SlopeThresholdEarlyStopping) : Decidable s.WF := by
  unfold WF; infer_instance

end SlopeThresholdEarlyStopping

/-- Feed a list of values to consecutive `should_stop` calls on a slope
instance, collecting the returned booleans. -/
def runSlope (s : SlopeThresholdEarlyStopping) : List ℚ → List Bool
  | [] => []
  | v :: vs =>
    let r := s.should_stop v
    r.1 :: runSlope r.2 vs

/-- The state of a slope instance after feeding a list of values. -/
def runSlopeState (s : SlopeThresholdEarlyStopping) : List ℚ → SlopeThresholdEarlyStopping
  | [] => s
  | v :: vs => runSlopeState (s.should_stop v).2 vs

/-- States of the slope criterion reachable from some construction by some
sequence of `should_stop` calls (window width at least 1, as every use of the
criterion requires: with `time = 0` the Python buffer write `y[-1] = v`
raises). -/
def SlopeReachable (s : SlopeThresholdEarlyStopping) : Prop :=
  ∃ mn mx t vs, 1 ≤ t ∧ s = runSlopeState (SlopeThresholdEarlyStopping.init mn mx t) vs

/-! ## Helper lemmas -/

lemma dotQ_nil (b : List ℚ) : dotQ [] b = 0 := rfl

lemma dotQ_self (a : List ℚ) : dotQ a a = (a.map fun q => q * q).sum := by
  induction a with
  | nil => rfl
  | cons q a ih => simp [dotQ, List.zip_cons_cons] at ih ⊢; simpa using ih

lemma two_mul_sum_range_cast (n : ℕ) :
    2 * ((List.range n).map fun i : ℕ => (i : ℚ)).sum = (n : ℚ) ^ 2 - n := by
  induction n with
  | zero => simp
  | succ n ih =>
    rw [List.range_succ, List.map_append, List.sum_append]
    simp only [List.map_cons, List.map_nil, List.sum_cons, List.sum_nil, add_zero]
    push_cast at ih ⊢
    nlinarith [ih]

lemma six_mul_sum_range_sq (n : ℕ) :
    6 * ((List.range n).map fun i : ℕ => (i : ℚ) * i).sum =
      2 * (n : ℚ) ^ 3 - 3 * (n : ℚ) ^ 2 + n := by
  induction n with
  | zero => simp
  | succ n ih =>
    rw [List.range_succ, List.map_append, List.sum_append]
    simp only [List.map_cons, List.map_nil, List.sum_cons, List.sum_nil, add_zero]
    push_cast at ih ⊢
    nlinarith [ih]

/-- Closed form of the least-squares denominator for the time axis
`x = range(n)`. -/
lemma twelve_mul_slope_denom (n : ℕ) :
    12 * (((((List.range n).map fun i : ℕ => (i : ℚ)).length : ℚ) *
        dotQ ((List.range n).map fun i : ℕ => (i : ℚ)) ((List.range n).map fun i : ℕ => (i : ℚ)) -
        ((List.range n).map fun i : ℕ => (i : ℚ)).sum * ((List.range n).map fun i : ℕ => (i : ℚ)).sum)) =
      (n : ℚ) ^ 4 - (n : ℚ) ^ 2 := by
  have hlen : (((List.range n).map fun i : ℕ => (i : ℚ)).length : ℚ) = n := by simp
  have hsq : dotQ ((List.range n).map fun i : ℕ => (i : ℚ)) ((List.range n).map fun i : ℕ => (i : ℚ)) =
      ((List.range n).map fun i : ℕ => (i : ℚ) * i).sum := by
    rw [dotQ_self, List.map_map]; rfl
  rw [hlen, hsq]
  have h1 := two_mul_sum_range_cast n
  have h2 := six_mul_sum_range_sq n
  nlinarith [h1, h2]

/-- For a window of width at least 2 the least-squares denominator is
nonzero: the design matrix has full column rank. -/
lemma slope_denom_ne_zero (n : ℕ) (hn : 2 ≤ n) :
    ((((List.range n).map fun i : ℕ => (i : ℚ)).length : ℚ) *
        dotQ ((List.range n).map fun i : ℕ => (i : ℚ)) ((List.range n).map fun i : ℕ => (i : ℚ)) -
        ((List.range n).map fun i : ℕ => (i : ℚ)).sum * ((List.range n).map fun i : ℕ => (i : ℚ)).sum) ≠ 0 := by
  have h := twelve_mul_slope_denom n
  have hn' : (2 : ℚ) ≤ (n : ℚ) := by exact_mod_cast hn
  intro hzero
  rw [hzero, mul_zero] at h
  have h4 : (4 : ℚ) ≤ (n : ℚ) ^ 2 := by nlinarith [hn']
  nlinarith [h, h4]

/-- The closed-form slope and intercept jointly satisfy the normal equations
of the ordinary least-squares problem whenever the denominator is nonzero:
they are the critical point of the summed squared residuals, i.e. the
least-squares solution `np.linalg.lstsq` returns for a full-rank design. -/
lemma ols_normal_equations (x y : List ℚ)
    (hD : ((x.length : ℚ) * dotQ x x - x.sum * x.sum) ≠ 0) :
    olsSlope x y * dotQ x x + olsIntercept x y * x.sum = dotQ x y ∧
    olsSlope x y * x.sum + olsIntercept x y * (x.length : ℚ) = y.sum := by
  unfold olsSlope olsIntercept
  constructor <;> (field_simp; ring)

namespace SlopeThresholdEarlyStopping

lemma WF_init (mn mx : XRat) (t : ℕ) (ht : 1 ≤ t) : (init mn mx t).WF :=
  ⟨rfl, rfl, by simp [init], ht⟩

lemma should_stop_snd (s : SlopeThresholdEarlyStopping) (v : ℚ) :
    (s.should_stop v).2 =
      if s.points_seen < s.time - 1 then
        { s with y := s.y.tail ++ [v], points_seen := s.points_seen + 1 }
      else
        { s with y := s.y.tail ++ [v] } := by
  unfold should_stop
  split <;> rfl

lemma WF_should_stop (s : SlopeThresholdEarlyStopping) (h : s.WF) (v : ℚ) :
    ((s.should_stop v).2).WF := by
  obtain ⟨hx, hA, hy, ht⟩ := h
  rw [should_stop_snd]
  have hylen : (s.y.tail ++ [v]).length = s.time := by
    simp [List.length_tail]
    omega
  split <;> exact ⟨hx, hA, hylen, ht⟩

lemma WF_runSlopeState (vs : List ℚ) (s : SlopeThresholdEarlyStopping) (h : s.WF) :
    (runSlopeState s vs).WF := by
  induction vs generalizing s with
  | nil => exact h
  | cons v vs ih => exact ih _ (WF_should_stop s h v)

lemma WF_of_reachable (s : SlopeThresholdEarlyStopping) (h : SlopeReachable s) : s.WF := by
  obtain ⟨mn, mx, t, vs, ht, rfl⟩ := h
  exact WF_runSlopeState vs _ (WF_init mn mx t ht)

/-- On a well-formed state, `reset` rebuilds exactly the freshly constructed
instance with the same parameters. -/
lemma reset_eq_init (s : SlopeThresholdEarlyStopping) (h : s.WF) :
    s.reset = init s.min s.max s.time := by
  obtain ⟨hx, hA, hy, _⟩ := h
  cases s with
  | mk mn mx ps t x y A =>
    simp only at hx hA hy
    simp [reset, init, hx, hA, hy]

end SlopeThresholdEarlyStopping

/-! ## Claims -/

/-- C1 (amended): for the patience criterion with `patience = 1`, feeding
`[5, 5, 5]` to consecutive `should_stop` calls on a fresh instance returns
`[false, false, true]`: equality with `best_so_far` never counts as
improvement, so the counter advances to 1 on the first repeated value
(second call), but it only exceeds `patience = 1` on the third call. -/
theorem claim_C1 :
    runPatience (PatienceEarlyStopping.init 1) [XRat.fin 5, XRat.fin 5, XRat.fin 5] =
      [false, false, true] ∧
    ((((PatienceEarlyStopping.init 1).should_stop
        (XRat.fin 5)).2.should_stop (XRat.fin 5)).2).time_since_best = 1 := by
  constructor <;> decide

/-- C1, as stated, is false: the boolean sequence for `[5, 5, 5]` with
`patience = 1` is not `[false, true, true]` (the second call returns `false`
because the counter 1 does not exceed the patience of 1). -/
theorem claim_C1_counterexample :
    runPatience (PatienceEarlyStopping.init 1) [XRat.fin 5, XRat.fin 5, XRat.fin 5] ≠
      [false, true, true] := by
  decide

/-- C2: every `should_stop(value)` call on the patience criterion either
records a strict improvement (new best, counter zeroed, `false` returned) or
increments the counter and returns whether it exceeds `patience`; in
particular `[1, 5, 3, 3, 3]` with `patience = 2` returns
`[false, false, false, false, true]`. -/
theorem claim_C2 :
    (∀ (p : PatienceEarlyStopping) (v : XRat),
      p.should_stop v =
        if v.bgt p.best_so_far then
          (false, { p with best_so_far := v, time_since_best := 0 })
        else
          (decide (p.time_since_best + 1 > p.patience),
           { p with time_since_best := p.time_since_best + 1 })) ∧
    runPatience (PatienceEarlyStopping.init 2)
      [XRat.fin 1, XRat.fin 5, XRat.fin 3, XRat.fin 3, XRat.fin 3] =
      [false, false, false, false, true] := by
  exact ⟨fun p v => rfl, by decide⟩

/-- C3: once the slope criterion's warm-up is over (`points_seen` has reached
`time - 1`), every `should_stop` call appends the new value to the shifted
buffer, leaves `points_seen` unchanged, and returns exactly the comparison of
the least-squares slope of the `time` pairs (time index `0..time-1`, buffered
value) against the bounds; the slope (with its intercept) satisfies the
normal equations of the ordinary least-squares problem. -/
theorem claim_C3 (s : SlopeThresholdEarlyStopping) (v : ℚ) (hwf : s.WF)
    (h2 : 2 ≤ s.time) (hseen : s.time - 1 ≤ s.points_seen) :
    s.should_stop v =
      ((XRat.fin (olsSlope s.x (s.y.tail ++ [v]))).blt s.min ||
        (XRat.fin (olsSlope s.x (s.y.tail ++ [v]))).bgt s.max,
       { s with y := s.y.tail ++ [v] }) ∧
    s.x = (List.range s.time).map (fun i : ℕ => (i : ℚ)) ∧
    (s.x.zip (s.y.tail ++ [v])).length = s.time ∧
    olsSlope s.x (s.y.tail ++ [v]) * dotQ s.x s.x +
      olsIntercept s.x (s.y.tail ++ [v]) * s.x.sum = dotQ s.x (s.y.tail ++ [v]) ∧
    olsSlope s.x (s.y.tail ++ [v]) * s.x.sum +
      olsIntercept s.x (s.y.tail ++ [v]) * (s.x.length : ℚ) = (s.y.tail ++ [v]).sum := by
  obtain ⟨hx, hA, hy, ht⟩ := hwf
  have hxlen : s.x.length = s.time := by rw [hx]; simp
  have hylen : (s.y.tail ++ [v]).length = s.time := by
    simp [List.length_tail]; omega
  have hD : ((s.x.length : ℚ) * dotQ s.x s.x - s.x.sum * s.x.sum) ≠ 0 := by
    rw [hx]; exact slope_denom_ne_zero s.time h2
  have hne := ols_normal_equations s.x (s.y.tail ++ [v]) hD
  refine ⟨?_, hx, ?_, hne.1, hne.2⟩
  · unfold SlopeThresholdEarlyStopping.should_stop
    rw [if_neg (by omega)]
  · rw [List.length_zip, hxlen, hylen, min_self]

/-- Witness for C3: the window-3 instance with bounds `(-inf, 2)` after the
two warm-up values `1, 2`, fed the value `3`. -/
theorem claim_C3_witness :
    ((⟨XRat.negInf, XRat.fin 2, 2, 3, [0, 1, 2], [0, 1, 2],
        [(0, 1), (1, 1), (2, 1)]⟩ : SlopeThresholdEarlyStopping).WF ∧
      2 ≤ (3 : ℕ) ∧ (3 : ℕ) - 1 ≤ 2) ∧
    ((⟨XRat.negInf, XRat.fin 2, 2, 3, [0, 1, 2], [0, 1, 2],
        [(0, 1), (1, 1), (2, 1)]⟩ : SlopeThresholdEarlyStopping).should_stop 3 =
      ((XRat.fin (olsSlope [0, 1, 2] ([(0 : ℚ), 1, 2].tail ++ [3]))).blt XRat.negInf ||
        (XRat.fin (olsSlope [0, 1, 2] ([(0 : ℚ), 1, 2].tail ++ [3]))).bgt (XRat.fin 2),
       ⟨XRat.negInf, XRat.fin 2, 2, 3, [0, 1, 2], [(0 : ℚ), 1, 2].tail ++ [3],
        [(0, 1), (1, 1), (2, 1)]⟩) ∧
      [(0 : ℚ), 1, 2] = (List.range 3).map (fun i : ℕ => (i : ℚ)) ∧
      ([(0 : ℚ), 1, 2].zip ([(0 : ℚ), 1, 2].tail ++ [3])).length = 3 ∧
      olsSlope [0, 1, 2] ([(0 : ℚ), 1, 2].tail ++ [3]) * dotQ [0, 1, 2] [0, 1, 2] +
        olsIntercept [0, 1, 2] ([(0 : ℚ), 1, 2].tail ++ [3]) * [(0 : ℚ), 1, 2].sum =
          dotQ [0, 1, 2] ([(0 : ℚ), 1, 2].tail ++ [3]) ∧
      olsSlope [0, 1, 2] ([(0 : ℚ), 1, 2].tail ++ [3]) * [(0 : ℚ), 1, 2].sum +
        olsIntercept [0, 1, 2] ([(0 : ℚ), 1, 2].tail ++ [3]) * (([(0 : ℚ), 1, 2].length : ℚ)) =
          ([(0 : ℚ), 1, 2].tail ++ [3]).sum) :=
  ⟨⟨by decide, by decide, by decide⟩,
   claim_C3 ⟨XRat.negInf, XRat.fin 2, 2, 3, [0, 1, 2], [0, 1, 2],
      [(0, 1), (1, 1), (2, 1)]⟩ 3 (by decide) (by decide) (by decide)⟩

/-- C4: every `should_stop` call on the slope criterion made during warm-up
(while `points_seen < time - 1`, i.e. while fewer than `time` values have
been supplied counting the current one) returns `false` for any input value;
in particular with window 3 the first two calls return `false` for any
bounds and any values. -/
theorem claim_C4 :
    (∀ (s : SlopeThresholdEarlyStopping) (v : ℚ),
        s.points_seen < s.time - 1 → (s.should_stop v).1 = false) ∧
    (∀ (mn mx : XRat) (v₁ v₂ : ℚ),
        ((SlopeThresholdEarlyStopping.init mn mx 3).should_stop v₁).1 = false ∧
        (((SlopeThresholdEarlyStopping.init mn mx 3).should_stop v₁).2.should_stop v₂).1 =
          false) := by
  constructor
  · intro s v h
    unfold SlopeThresholdEarlyStopping.should_stop
    rw [if_pos h]
  · intro mn mx v₁ v₂
    exact ⟨rfl, rfl⟩

/-- Witness for C4: a fresh window-3 instance is in warm-up and its first two
calls return `false`. -/
theorem claim_C4_witness :
    (SlopeThresholdEarlyStopping.init XRat.negInf XRat.posInf 3).points_seen <
      (SlopeThresholdEarlyStopping.init XRat.negInf XRat.posInf 3).time - 1 ∧
    ((SlopeThresholdEarlyStopping.init XRat.negInf XRat.posInf 3).should_stop 7).1 = false ∧
    (((SlopeThresholdEarlyStopping.init XRat.negInf XRat.posInf 3).should_stop 7).1 = false ∧
      ((((SlopeThresholdEarlyStopping.init XRat.negInf XRat.posInf 3).should_stop
          7).2).should_stop 9).1 = false) :=
  ⟨by decide,
   claim_C4.1 (SlopeThresholdEarlyStopping.init XRat.negInf XRat.posInf 3) 7 (by decide),
   claim_C4.2 XRat.negInf XRat.posInf 7 9⟩

/-- C5: with window 3, feeding `1, 2, 3` from construction makes the third
call fit the exact slope `m = 1`; with `max_slope = 1/2` the third call
returns `true` and with `max_slope = 2` it returns `false`. -/
theorem claim_C5 :
    runSlope (SlopeThresholdEarlyStopping.init XRat.negInf (XRat.fin (1 / 2)) 3)
      [1, 2, 3] = [false, false, true] ∧
    runSlope (SlopeThresholdEarlyStopping.init XRat.negInf (XRat.fin 2) 3)
      [1, 2, 3] = [false, false, false] ∧
    olsSlope ((List.range 3).map fun i : ℕ => (i : ℚ)) [1, 2, 3] = 1 := by
  refine ⟨?_, ?_, ?_⟩ <;>
    norm_num [runSlope, SlopeThresholdEarlyStopping.init,
      SlopeThresholdEarlyStopping.should_stop, olsSlope, dotQ, XRat.bgt, XRat.blt,
      List.range_succ]

/-- C6: the threshold criterion's `should_stop` returns exactly
`value > max or value < min`, reading nothing but the two fixed bounds (its
state, which holds only those bounds, is untouched); with the default
unbounded construction it returns `false` for every finite value. -/
theorem claim_C6 :
    (∀ (t : ThresholdEarlyStopping) (v : XRat),
        t.should_stop v = (v.bgt t.max || v.blt t.min)) ∧
    (∀ (t : ThresholdEarlyStopping) (v : XRat), (t.stepEffect v).2 = t) ∧
    (∀ q : ℚ, ThresholdEarlyStopping.initDefault.should_stop (XRat.fin q) = false) := by
  exact ⟨fun t v => rfl, fun t v => rfl, fun q => rfl⟩

/-- C7: for both criteria supporting `reset` (patience and slope), resetting
an instance — any patience state; any reachable slope state — and then
feeding a value sequence produces the same boolean sequence as feeding it to
a freshly constructed instance with the same parameters. -/
theorem claim_C7 :
    (∀ (p : PatienceEarlyStopping) (vs : List XRat),
        runPatience p.reset vs = runPatience (PatienceEarlyStopping.init p.patience) vs) ∧
    (∀ (s : SlopeThresholdEarlyStopping), SlopeReachable s → ∀ vs : List ℚ,
        runSlope s.reset vs =
          runSlope (SlopeThresholdEarlyStopping.init s.min s.max s.time) vs) := by
  constructor
  · intro p vs; rfl
  · intro s hs vs
    rw [SlopeThresholdEarlyStopping.reset_eq_init s
      (SlopeThresholdEarlyStopping.WF_of_reachable s hs)]

/-- Witness for C7: a concrete reachable slope state (window 2, one value
fed) replays like a fresh instance after reset, and so does a concrete
patience instance. -/
theorem claim_C7_witness :
    SlopeReachable (⟨XRat.negInf, XRat.fin 1, 1, 2, [0, 1], [0, 4],
      [(0, 1), (1, 1)]⟩ : SlopeThresholdEarlyStopping) ∧
    runPatience (PatienceEarlyStopping.init 3).reset [XRat.fin 2] =
      runPatience (PatienceEarlyStopping.init 3) [XRat.fin 2] ∧
    runSlope ((⟨XRat.negInf, XRat.fin 1, 1, 2, [0, 1], [0, 4],
        [(0, 1), (1, 1)]⟩ : SlopeThresholdEarlyStopping).reset) [5, 6] =
      runSlope (SlopeThresholdEarlyStopping.init XRat.negInf (XRat.fin 1) 2) [5, 6] :=
  ⟨⟨XRat.negInf, XRat.fin 1, 2, [4], by decide, by decide⟩,
   claim_C7.1 (PatienceEarlyStopping.init 3) [XRat.fin 2],
   claim_C7.2 ⟨XRat.negInf, XRat.fin 1, 1, 2, [0, 1], [0, 4], [(0, 1), (1, 1)]⟩
     ⟨XRat.negInf, XRat.fin 1, 2, [4], by decide, by decide⟩ [5, 6]⟩

/-- C8: calling `reset()` on the threshold criterion signals an error (Python
fails to resolve the attribute: `ThresholdEarlyStopping` neither defines
`reset` nor inherits `StatefulTriggerMixin`), rather than succeeding
silently as a no-op. -/
theorem claim_C8 :
    callResetOn TriggerClass.threshold = Except.error TriggerError.attributeError ∧
    (∃ e : TriggerError, callResetOn TriggerClass.threshold = Except.error e) ∧
    callResetOn TriggerClass.patience = Except.ok () ∧
    callResetOn TriggerClass.slope = Except.ok () := by
  exact ⟨rfl, ⟨TriggerError.attributeError, rfl⟩, rfl, rfl⟩

/-- C9: no `should_stop` call mutates construction-time parameters: the
threshold state is untouched, the patience criterion's `patience` is
unchanged, and the slope criterion's bounds, window size, time-index vector
and design matrix are unchanged (only `y` and `points_seen` can change). -/
theorem claim_C9 :
    (∀ (t : ThresholdEarlyStopping) (v : XRat), (t.stepEffect v).2 = t) ∧
    (∀ (p : PatienceEarlyStopping) (v : XRat),
        ((p.should_stop v).2).patience = p.patience) ∧
    (∀ (s : SlopeThresholdEarlyStopping) (v : ℚ),
        ((s.should_stop v).2).min = s.min ∧ ((s.should_stop v).2).max = s.max ∧
        ((s.should_stop v).2).time = s.time ∧ ((s.should_stop v).2).x = s.x ∧
        ((s.should_stop v).2).A = s.A) := by
  refine ⟨fun t v => rfl, fun p v => ?_, fun s v => ?_⟩
  · unfold PatienceEarlyStopping.should_stop
    split <;> rfl
  · rw [SlopeThresholdEarlyStopping.should_stop_snd]
    split <;> exact ⟨rfl, rfl, rfl, rfl, rfl⟩

/-- C10: if the first value fed to the patience criterion after construction
(or reset) is `-inf`, it is not strictly greater than the initial
`best_so_far` of `-inf`, so the counter increments to 1 on that very first
call; with `patience = 0` that first call returns `true`. -/
theorem claim_C10 :
    XRat.bgt XRat.negInf XRat.negInf = false ∧
    (∀ patience : ℕ,
        (PatienceEarlyStopping.init patience).should_stop XRat.negInf =
          (decide (1 > patience),
           { patience := patience, best_so_far := XRat.negInf, time_since_best := 1 })) ∧
    (∀ p : PatienceEarlyStopping,
        p.reset.should_stop XRat.negInf =
          (decide (1 > p.patience),
           { patience := p.patience, best_so_far := XRat.negInf, time_since_best := 1 })) ∧
    ((PatienceEarlyStopping.init 0).should_stop XRat.negInf).1 = true := by
  exact ⟨rfl, fun patience => rfl, fun p => rfl, rfl⟩
